import Mathlib

/-!
# Verification of the study-portal batch crawler

Shallow embedding of the crawler's state management (`src/utils/stateManager.js`),
the Cloudflare challenge classifier (`CloudflareDetector`), the search-page
fetch ladder, and the batch orchestrator (`BatchCrawler.processCountryPortal`
and `BatchCrawler.crawl`), together with theorems settling the specification
claims about them.

Strings, lists and natural numbers model the corresponding JavaScript values;
exceptions are modelled with `Except`/`Option`; the mutable `StateManager`
becomes explicit state passing.
-/

namespace StudyPortal

/-- Membership test mirroring JavaScript `Array.prototype.includes` /
`String.prototype.includes` on lists of characters. -/
def strIncludes (s pat : String) : Bool :=
  decide (pat.toList <:+: s.toList)

/-- Per-(country, portal) crawl state, as created by
`StateManager.createPortalState` in `src/utils/stateManager.js`:
`{ status, currentPage, totalPagesDiscovered, studyUrlsQueue, scrapedStudyUrls,
   programsExtracted, lastError, startedAt, completedAt }`. -/
structure PortalState where
  status : String
  currentPage : Nat
  totalPagesDiscovered : Nat
  studyUrlsQueue : List String
  scrapedStudyUrls : List String
  programsExtracted : Nat
  lastError : Option String
  startedAt : Option String
  completedAt : Option String
  deriving Repr, DecidableEq

/-- `StateManager.createPortalState`. -/
def createPortalState : PortalState where
  status := "not_started"
  currentPage := 1
  totalPagesDiscovered := 0
  studyUrlsQueue := []
  scrapedStudyUrls := []
  programsExtracted := 0
  lastError := none
  startedAt := none
  completedAt := none

/-- `StateManager.markStudyUrlScraped`: remove the url from the queue
(`filter (u) => u !== url`), then append it to `scrapedStudyUrls` only when
it is not already present. -/
def markStudyUrlScraped (st : PortalState) (url : String) : PortalState :=
  let queue := st.studyUrlsQueue.filter (fun u => u ≠ url)
  let scraped :=
    if url ∈ st.scrapedStudyUrls then st.scrapedStudyUrls
    else st.scrapedStudyUrls ++ [url]
  { st with studyUrlsQueue := queue, scrapedStudyUrls := scraped }

/-- `StateManager.addStudyUrlsToQueue`: keep only the urls that are neither in
`scrapedStudyUrls` nor in `studyUrlsQueue`, push them onto the queue, and
return the new state together with `newUrls.length`. -/
def addStudyUrlsToQueue (st : PortalState) (urls : List String) :
    PortalState × Nat :=
  let newUrls := urls.filter
    (fun url => url ∉ st.scrapedStudyUrls ∧ url ∉ st.studyUrlsQueue)
  ({ st with studyUrlsQueue := st.studyUrlsQueue ++ newUrls }, newUrls.length)

/-- `StateManager.getNextStudyUrl`: head of the pending queue, `null` when
empty. -/
def getNextStudyUrl (st : PortalState) : Option String :=
  st.studyUrlsQueue.head?

/-- `StateManager.isCompleted`: `status === "completed"`. -/
def isCompleted (st : PortalState) : Bool :=
  st.status == "completed"

/-- The disjointness invariant of a crawl unit: no url is both pending
(`studyUrlsQueue`) and completed (`scrapedStudyUrls`). -/
def QueueScrapedDisjoint (st : PortalState) : Prop :=
  ∀ u, u ∈ st.studyUrlsQueue → u ∉ st.scrapedStudyUrls

instance (st : PortalState) : Decidable (QueueScrapedDisjoint st) := by
  unfold QueueScrapedDisjoint
  infer_instance

lemma mem_queue_addStudyUrlsToQueue {st : PortalState} {urls : List String}
    {u : String} (h : u ∈ (addStudyUrlsToQueue st urls).1.studyUrlsQueue) :
    u ∈ st.studyUrlsQueue ∨
      (u ∈ urls ∧ u ∉ st.scrapedStudyUrls ∧ u ∉ st.studyUrlsQueue) := by
  simp only [addStudyUrlsToQueue, List.mem_append, List.mem_filter,
    decide_eq_true_eq] at h
  rcases h with h | h
  · exact Or.inl h
  · exact Or.inr ⟨h.1, h.2⟩

lemma scraped_addStudyUrlsToQueue (st : PortalState) (urls : List String) :
    (addStudyUrlsToQueue st urls).1.scrapedStudyUrls = st.scrapedStudyUrls :=
  rfl

lemma mem_queue_markStudyUrlScraped {st : PortalState} {url u : String}
    (h : u ∈ (markStudyUrlScraped st url).studyUrlsQueue) :
    u ∈ st.studyUrlsQueue ∧ u ≠ url := by
  simp only [markStudyUrlScraped, List.mem_filter, decide_eq_true_eq] at h
  exact h

lemma mem_scraped_markStudyUrlScraped {st : PortalState} {url u : String}
    (h : u ∈ (markStudyUrlScraped st url).scrapedStudyUrls) :
    u ∈ st.scrapedStudyUrls ∨ u = url := by
  simp only [markStudyUrlScraped] at h
  split at h
  · exact Or.inl h
  · rcases List.mem_append.mp h with h | h
    · exact Or.inl h
    · simp only [List.mem_singleton] at h
      exact Or.inr h

lemma url_mem_scraped_markStudyUrlScraped (st : PortalState) (url : String) :
    url ∈ (markStudyUrlScraped st url).scrapedStudyUrls := by
  simp only [markStudyUrlScraped]
  split
  · assumption
  · simp

lemma url_not_mem_queue_markStudyUrlScraped (st : PortalState) (url : String) :
    url ∉ (markStudyUrlScraped st url).studyUrlsQueue := by
  intro h
  exact (mem_queue_markStudyUrlScraped h).2 rfl

lemma markStudyUrlScraped_disjoint {st : PortalState}
    (hd : QueueScrapedDisjoint st) (url : String) :
    QueueScrapedDisjoint (markStudyUrlScraped st url) := by
  intro u hq hs
  obtain ⟨hq', hne⟩ := mem_queue_markStudyUrlScraped hq
  rcases mem_scraped_markStudyUrlScraped hs with hs' | rfl
  · exact hd u hq' hs'
  · exact hne rfl

lemma addStudyUrlsToQueue_disjoint {st : PortalState}
    (hd : QueueScrapedDisjoint st) (urls : List String) :
    QueueScrapedDisjoint (addStudyUrlsToQueue st urls).1 := by
  intro u hq hs
  rw [scraped_addStudyUrlsToQueue] at hs
  rcases mem_queue_addStudyUrlsToQueue hq with h | h
  · exact hd u h hs
  · exact h.2.1 hs

/-! ## Challenge classification (`CloudflareDetector.detectChallenge`) -/

/-- The inputs `detectChallenge` reads from the Playwright page: final URL,
page title, page content, and the cookie names of the browser context. -/
structure PageSnapshot where
  url : String
  title : String
  content : String
  cookieNames : List String
  deriving Repr, DecidableEq

/-- The `challengeType` values computed by `detectChallenge`:
`'none'`, `'challenge'` or `'blocked'`. -/
inductive ChallengeType where
  | clear
  | challenge
  | blocked
  deriving Repr, DecidableEq

/-- `url.includes('/cdn-cgi/challenge-platform/')`. -/
def isChallengePlatform (p : PageSnapshot) : Bool :=
  strIncludes p.url "/cdn-cgi/challenge-platform/"

/-- `url.includes('/cdn-cgi/challenge-platform/h/g/')`. -/
def isTurnstileChallenge (p : PageSnapshot) : Bool :=
  strIncludes p.url "/cdn-cgi/challenge-platform/h/g/"

/-- `hasBlockedTitle` in `detectChallenge`: the four interstitial title
markers. -/
def hasBlockedTitle (p : PageSnapshot) : Bool :=
  strIncludes p.title "Just a moment" ||
  strIncludes p.title "Attention Required" ||
  strIncludes p.title "Please Wait" ||
  strIncludes p.title "Checking your browser"

/-- `hasChallengeContent` in `detectChallenge`: the five challenge-widget
content markers. -/
def hasChallengeContent (p : PageSnapshot) : Bool :=
  strIncludes p.content "cf-browser-verification" ||
  strIncludes p.content "cf_challenge_response" ||
  strIncludes p.content "cf-challenge-running" ||
  strIncludes p.content "cf-chl-widget" ||
  strIncludes p.content "challenges.cloudflare.com/turnstile"

/-- `hasAccessDenied` in `detectChallenge` (note that `&&` binds tighter than
`||` in JavaScript, so the last disjunct is the conjunction
`content.includes('Ray ID:') && content.includes('Cloudflare')`). -/
def hasAccessDenied (p : PageSnapshot) : Bool :=
  strIncludes p.content "Access denied" ||
  strIncludes p.content "blocked" ||
  strIncludes p.content "Sorry, you have been blocked" ||
  (strIncludes p.content "Ray ID:" && strIncludes p.content "Cloudflare")

/-- The `challengeType` decision chain of `detectChallenge`:
`hasAccessDenied` → `'blocked'`; else url/content challenge indicators →
`'challenge'`; else a blocked title → `'challenge'`; else `'none'`. -/
def detectChallenge (p : PageSnapshot) : ChallengeType :=
  if hasAccessDenied p then .blocked
  else if isChallengePlatform p || isTurnstileChallenge p ||
      hasChallengeContent p then .challenge
  else if hasBlockedTitle p then .challenge
  else .clear

/-- Classifier written from the words of the claim (spec §4.2): content
containing one of the three hard-block phrases is `blocked`; otherwise a
title matching `'Just a moment'`/`'Attention Required'` or content containing
a challenge-widget marker is `challenge`; otherwise `clear`. -/
def claimClassify (p : PageSnapshot) : ChallengeType :=
  if strIncludes p.content "Access denied" ||
      strIncludes p.content "blocked" ||
      strIncludes p.content "Sorry, you have been blocked" then .blocked
  else if strIncludes p.title "Just a moment" ||
      strIncludes p.title "Attention Required" ||
      hasChallengeContent p then .challenge
  else .clear

/-- Classifier written from the amended claim: `blocked` additionally fires on
content containing both `'Ray ID:'` and `'Cloudflare'`, and `challenge`
additionally fires on challenge-platform URL markers and on the further
interstitial titles `'Please Wait'` and `'Checking your browser'`. -/
def claimClassifyAmended (p : PageSnapshot) : ChallengeType :=
  if strIncludes p.content "Access denied" ||
      strIncludes p.content "blocked" ||
      strIncludes p.content "Sorry, you have been blocked" ||
      (strIncludes p.content "Ray ID:" && strIncludes p.content "Cloudflare")
    then .blocked
  else if strIncludes p.url "/cdn-cgi/challenge-platform/" ||
      strIncludes p.title "Just a moment" ||
      strIncludes p.title "Attention Required" ||
      strIncludes p.title "Please Wait" ||
      strIncludes p.title "Checking your browser" ||
      hasChallengeContent p then .challenge
  else .clear

/-! ## State persistence (`StateManager.saveState`) -/

/-- Outcome of one `fs.writeFileSync` call. -/
inductive WriteOutcome where
  | ok
  | ioError (msg : String)
  deriving Repr, DecidableEq

/-- Observable result of running `StateManager.saveState`: how many disk
writes were attempted, whether an error was logged, and whether the failure
was propagated (re-thrown / process aborted). -/
structure SaveResult where
  writeAttempts : Nat
  loggedError : Bool
  aborted : Bool
  deriving Repr, DecidableEq

/-- `StateManager.saveState`: a single `try { writeFileSync } catch { log }`.
The function performs exactly one write attempt; on failure the error is
logged with `console.error` and swallowed — nothing is re-thrown and the
process continues. `disk` gives the outcome of each successive write attempt
the routine would make. -/
def saveState (disk : Nat → WriteOutcome) : SaveResult :=
  match disk 0 with
  | .ok => { writeAttempts := 1, loggedError := false, aborted := false }
  | .ioError _ => { writeAttempts := 1, loggedError := true, aborted := false }

/-! ## Search-page fetch ladder (`BatchCrawler.crawlSearchPage`) -/

/-- Result of one successful `_crawlSearchPageWithBrowser` call. -/
structure SearchPageResult where
  studyUrls : List String
  hasNextPage : Bool
  currentPage : Nat
  deriving Repr, DecidableEq

/-- Outcome of one whole-browser attempt (`_crawlSearchPageWithBrowser` with
one engine): either a result or a thrown error carrying its message. -/
inductive BrowserAttempt where
  | ok (r : SearchPageResult)
  | err (msg : String)
  deriving Repr, DecidableEq

/-- The two browser engines of the dual-browser setup. -/
inductive Engine where
  | chromium
  | webkit
  deriving Repr, DecidableEq

/-- `BatchCrawler.crawlSearchPage`: try Chromium; if it throws and the error
message contains `'Cloudflare'`, wait and retry once with WebKit; any other
error is re-thrown.  Returns the final outcome together with the list of
engines actually attempted, in order. -/
def crawlSearchPage (chromiumRun webkitRun : BrowserAttempt) :
    (Except String SearchPageResult) × List Engine :=
  match chromiumRun with
  | .ok r => (.ok r, [.chromium])
  | .err msg =>
    if strIncludes msg "Cloudflare" then
      match webkitRun with
      | .ok r => (.ok r, [.chromium, .webkit])
      | .err msg2 => (.error msg2, [.chromium, .webkit])
    else (.error msg, [.chromium])

/-- The error message thrown by `_crawlSearchPageWithBrowser` when the page
content matches the blocked markers
(`throw new Error('Cloudflare blocked access with ' + browserName)`). -/
def blockedErrorMsg (browserName : String) : String :=
  "Cloudflare blocked access with " ++ browserName

/-- The phases `_crawlSearchPageWithBrowser` can reach after navigation, in
program order: the challenge-title loop, the blocked-content check, the
link-loading retry loop (which may click the retry button or fall back to a
visible browser). -/
inductive LadderStep where
  | challengeLoop
  | blockedCheck
  | linkWait
  | retryClick
  | visibleFallback
  deriving Repr, DecidableEq

/-- Control flow of `_crawlSearchPageWithBrowser` after navigation, at the
level of its phases.  `hasChallengeTitle`: the initial title matched the
challenge markers; `challengeResolves`: the human-simulation loop saw the
title clear within 5 rounds; `hasBlockedContent`: the initial content matched
the blocked markers; `linksLoad`: study links appear; `retryButton`: a
`'Try again'` button is present when links are missing.  Returns the thrown
error (if any) and the ordered list of phases that executed. -/
def browserAttemptSteps (browserName : String)
    (hasChallengeTitle challengeResolves hasBlockedContent
      linksLoad retryButton : Bool) :
    (Except String Unit) × List LadderStep :=
  -- challenge-title loop
  let chalSteps : List LadderStep :=
    if hasChallengeTitle then [.challengeLoop] else []
  if hasChallengeTitle && !challengeResolves then
    (.error ("Cloudflare challenge not resolved with " ++ browserName ++
      " after 5 attempts"), chalSteps)
  else
    -- blocked-content check
    if hasBlockedContent then
      (.error (blockedErrorMsg browserName), chalSteps ++ [.blockedCheck])
    else
      -- link-loading retry loop
      if linksLoad then (.ok (), chalSteps ++ [.blockedCheck, .linkWait])
      else if retryButton then
        (.error ("Cloudflare detected - switching browser engine"),
          chalSteps ++ [.blockedCheck, .linkWait, .visibleFallback])
      else (.ok (), chalSteps ++ [.blockedCheck, .linkWait])

/-- `CloudflareDetector.waitForChallengePass`: poll `detectChallenge` until it
reports no challenge (success), a `'blocked'` classification (immediate
failure), or the timeout expires.  `outcomes` is the stream of successive
classifications; the returned `Nat` is the number of polls performed. -/
def waitForChallengePass : List ChallengeType → Bool × Nat
  | [] => (false, 0)
  | o :: rest =>
    if o = .clear then (true, 1)
    else if o = .blocked then (false, 1)
    else
      let (b, n) := waitForChallengePass rest
      (b, n + 1)

/-! ## The per-unit orchestrator loop (`BatchCrawler.processCountryPortal`) -/

/-- Outcome of `crawlSearchPage` for one search page: a result, or a thrown
error message (caught by the per-page `catch` in `processCountryPortal`). -/
inductive SearchOutcome where
  | ok (studyUrls : List String) (hasNext : Bool)
  | fail (msg : String)
  deriving Repr, DecidableEq

/-- External environment of one `processCountryPortal` run: what
`crawlSearchPage` yields at each page number, whether `scrapeStudyPage`
succeeds for a study url (false = the whole fetch chain for that url threw),
the `maxPagesPerCountry` budget and the current timestamp. -/
structure CrawlEnv where
  searchPage : Nat → SearchOutcome
  scrapeOk : String → Bool
  maxPagesPerCountry : Nat
  now : String

/-- Observable fetch events of a `processCountryPortal` run. -/
inductive CrawlEvent where
  | searchFetch (page : Nat)
  | studyFetch (url : String)
  deriving Repr, DecidableEq

/-- Body of the study-page loop for one url: `scrapeStudyPage` is attempted
(one `studyFetch` event); on success the url is marked scraped and
`programsExtracted` incremented, on failure (`catch`) the url is marked
scraped anyway. -/
def processStudyUrl (st : PortalState) (url : String) (ok : Bool) :
    PortalState :=
  if ok then
    let st1 := markStudyUrlScraped st url
    { st1 with programsExtracted := st1.programsExtracted + 1 }
  else
    markStudyUrlScraped st url

/-- The `for` loop over `newUrls` inside one search-page iteration. -/
def drainNewUrls (env : CrawlEnv) (st : PortalState) :
    List String → PortalState × List CrawlEvent
  | [] => (st, [])
  | url :: rest =>
    let st1 := processStudyUrl st url (env.scrapeOk url)
    let r := drainNewUrls env st1 rest
    (r.1, .studyFetch url :: r.2)

/-- One successful search-page iteration of `processCountryPortal`: the urls
not already in `scrapedStudyUrls` are scraped one by one, then `currentPage`
and `totalPagesDiscovered` are updated. -/
def pageStep (env : CrawlEnv) (st : PortalState) (pageNum : Nat)
    (urls : List String) : PortalState × List CrawlEvent :=
  let newUrls := urls.filter (fun u => u ∉ st.scrapedStudyUrls)
  let d := drainNewUrls env st newUrls
  ({ d.1 with
      currentPage := pageNum,
      totalPagesDiscovered := max pageNum d.1.totalPagesDiscovered }, d.2)

/-- The `while (hasMorePages && pagesProcessed < maxPagesPerCountry)` loop of
`processCountryPortal`.  Each iteration fetches the search page at
`pageNum`; on error the per-page `catch` records `lastError` and (having no
`result`) ends the loop; on success the page is processed by `pageStep` and
the loop continues at the next page number exactly when a next-page link was
found.  `fuel` bounds the recursion; `runPages` is always called with more
fuel than remaining page budget. -/
def runPages (env : CrawlEnv) : PortalState → Nat → Nat → Nat →
    PortalState × List CrawlEvent
  | st, _, _, 0 => (st, [])
  | st, pageNum, pagesProcessed, fuel + 1 =>
    if pagesProcessed < env.maxPagesPerCountry then
      match env.searchPage pageNum with
      | .fail msg =>
        ({ st with lastError := some msg }, [.searchFetch pageNum])
      | .ok urls hasNext =>
        let s := pageStep env st pageNum urls
        if hasNext then
          let r := runPages env s.1 (pageNum + 1) (pagesProcessed + 1) fuel
          (r.1, .searchFetch pageNum :: (s.2 ++ r.2))
        else
          (s.1, .searchFetch pageNum :: s.2)
    else (st, [])

/-- `BatchCrawler.processCountryPortal` for one (country, portal) unit:
skip immediately when the unit `isCompleted`; otherwise mark it
`in_progress` (setting `startedAt` once), run the page loop starting from the
persisted cursor (`countryState.currentPage || 1`), and afterwards mark the
unit `completed`. -/
def processCountryPortal (env : CrawlEnv) (st : PortalState) :
    PortalState × List CrawlEvent :=
  if isCompleted st then (st, [])
  else
    let st0 := { st with
      status := "in_progress",
      startedAt := some (st.startedAt.getD env.now) }
    let startPage := if st.currentPage = 0 then 1 else st.currentPage
    let r := runPages env st0 startPage 0 (env.maxPagesPerCountry + 1)
    ({ r.1 with status := "completed", completedAt := some env.now }, r.2)

/-! ## The two-phase batch loop (`BatchCrawler.crawl`) -/

/-- The two portal categories processed per country. -/
inductive PortalType where
  | masters
  | bachelors
  deriving Repr, DecidableEq

/-- Per-country pair of portal states, as stored under
`state.countries[label]`. -/
structure CountryEntry where
  masters : PortalState
  bachelors : PortalState
  deriving Repr, DecidableEq

/-- Fresh per-country entry created by `getCountryState` on first access. -/
def freshCountryEntry : CountryEntry :=
  { masters := createPortalState, bachelors := createPortalState }

/-- The whole persisted crawler state (`StateManager.createFreshState`):
`{ lastUpdated, currentPhase, countries }`, the countries being an
insertion-ordered map from country label to its two portal states. -/
structure GlobalState where
  lastUpdated : String
  currentPhase : String
  countries : List (String × CountryEntry)
  deriving Repr, DecidableEq

/-- `StateManager.createFreshState` (with the given timestamp). -/
def createFreshState (now : String) : GlobalState :=
  { lastUpdated := now, currentPhase := "masters", countries := [] }

/-- Look up a country entry, creating it on first access
(`StateManager.getCountryState`). -/
def getCountryEntry (gs : GlobalState) (label : String) :
    GlobalState × CountryEntry :=
  match gs.countries.lookup label with
  | some e => (gs, e)
  | none =>
    ({ gs with countries := gs.countries ++ [(label, freshCountryEntry)] },
      freshCountryEntry)

/-- Read the portal state of one category from a country entry. -/
def CountryEntry.get (e : CountryEntry) : PortalType → PortalState
  | .masters => e.masters
  | .bachelors => e.bachelors

/-- Replace the portal state of one category in a country entry. -/
def CountryEntry.set (e : CountryEntry) : PortalType → PortalState →
    CountryEntry
  | .masters, st => { e with masters := st }
  | .bachelors, st => { e with bachelors := st }

/-- Write back the portal state of one (country, portal) unit. -/
def setPortalState (gs : GlobalState) (label : String) (portal : PortalType)
    (st : PortalState) : GlobalState :=
  let update := fun (p : String × CountryEntry) =>
    if p.1 = label then (p.1, p.2.set portal st) else p
  { gs with countries := gs.countries.map update }

/-- `StateManager.setCurrentPhase`. -/
def setCurrentPhase (gs : GlobalState) (phase : String) : GlobalState :=
  { gs with currentPhase := phase }

/-- Events of a whole `BatchCrawler.crawl` run: one `unit` event per
`processCountryPortal` call (the call always returns — all its errors are
caught internally) and one `phaseSet` event per `setCurrentPhase` call. -/
inductive RunEvent where
  | unit (label : String) (portal : PortalType)
  | phaseSet (phase : String)
  deriving Repr, DecidableEq

/-- `processCountryPortal` lifted to the global state: fetch (or lazily
create) the unit, run it, write the result back. -/
def processUnit (env : CrawlEnv) (gs : GlobalState) (label : String)
    (portal : PortalType) : GlobalState :=
  let g := getCountryEntry gs label
  let r := processCountryPortal env (g.2.get portal)
  setPortalState g.1 label portal r.1

/-- One phase of `BatchCrawler.crawl`: process every country, in declaration
order, for one portal category. -/
def runPhase (env : CrawlEnv) (portal : PortalType) :
    GlobalState → List String → GlobalState × List RunEvent
  | gs, [] => (gs, [])
  | gs, label :: rest =>
    let gs1 := processUnit env gs label portal
    let r := runPhase env portal gs1 rest
    (r.1, .unit label portal :: r.2)

/-- `BatchCrawler.crawl`: when the persisted phase is `'masters'`, process all
countries' masters portals, then advance the phase to `'bachelors'`; when the
(possibly just-updated) phase is `'bachelors'`, process all countries'
bachelors portals. -/
def crawl (env : CrawlEnv) (countryLabels : List String) (gs : GlobalState) :
    GlobalState × List RunEvent :=
  let phase1 :=
    if gs.currentPhase == "masters" then
      let r := runPhase env .masters gs countryLabels
      (setCurrentPhase r.1 "bachelors", r.2 ++ [.phaseSet "bachelors"])
    else (gs, ([] : List RunEvent))
  if phase1.1.currentPhase == "bachelors" then
    let r := runPhase env .bachelors phase1.1 countryLabels
    (r.1, phase1.2 ++ r.2)
  else phase1

/-! ## Shape of the persisted state file (`JSON.stringify(this.state)`) -/

/-- The JSON values `JSON.stringify` can emit for the crawler state. -/
inductive Json where
  | null
  | str (s : String)
  | num (n : Nat)
  | arr (xs : List Json)
  | obj (fields : List (String × Json))

/-- Serialize an optional string the way `JSON.stringify` serializes a field
holding `null` or a string. -/
def optJson : Option String → Json
  | none => .null
  | some s => .str s

/-- JSON record written for one portal state, field for field as laid out in
`createPortalState` and mutated by the state manager. -/
def PortalState.toJson (st : PortalState) : Json :=
  .obj [
    ("status", .str st.status),
    ("currentPage", .num st.currentPage),
    ("totalPagesDiscovered", .num st.totalPagesDiscovered),
    ("studyUrlsQueue", .arr (st.studyUrlsQueue.map .str)),
    ("scrapedStudyUrls", .arr (st.scrapedStudyUrls.map .str)),
    ("programsExtracted", .num st.programsExtracted),
    ("lastError", optJson st.lastError),
    ("startedAt", optJson st.startedAt),
    ("completedAt", optJson st.completedAt)]

/-- JSON record written for one country: an object with the two fixed keys
`masters` and `bachelors`. -/
def CountryEntry.toJson (e : CountryEntry) : Json :=
  .obj [("masters", e.masters.toJson), ("bachelors", e.bachelors.toJson)]

/-- The persisted state file contents: `{ lastUpdated, currentPhase,
countries }` with `countries` an object keyed by country label. -/
def GlobalState.toJson (gs : GlobalState) : Json :=
  .obj [
    ("lastUpdated", .str gs.lastUpdated),
    ("currentPhase", .str gs.currentPhase),
    ("countries", .obj (gs.countries.map (fun p => (p.1, p.2.toJson))))]

/-- Does an object field list carry the given key? -/
def hasKey (fields : List (String × Json)) (k : String) : Bool :=
  fields.any (fun p => p.1 == k)

/-- Schema check written from the words of the claim (spec §6): the record is
an object carrying a `currentPhase` field and a `units` field holding an
array of unit records, each an object carrying `target`, `category`,
`status`, `cursor`, `pending`, `completed`, `itemsProcessed`, `lastError`,
`startedAt` and `completedAt` fields. -/
def specSchemaOK : Json → Bool
  | .obj fields =>
    hasKey fields "currentPhase" &&
    (fields.any (fun p =>
      p.1 == "units" &&
      match p.2 with
      | .arr units =>
        units.all (fun u =>
          match u with
          | .obj ufields =>
            hasKey ufields "target" && hasKey ufields "category" &&
            hasKey ufields "status" && hasKey ufields "cursor" &&
            hasKey ufields "pending" && hasKey ufields "completed" &&
            hasKey ufields "itemsProcessed" && hasKey ufields "lastError" &&
            hasKey ufields "startedAt" && hasKey ufields "completedAt"
          | _ => false)
      | _ => false))
  | _ => false

/-- Is this JSON value `null` or a string? -/
def isNullOrStr : Json → Bool
  | .null => true
  | .str _ => true
  | _ => false

/-- Is this JSON value an array of strings? -/
def isStrArr : Json → Bool
  | .arr xs => xs.all (fun x => match x with | .str _ => true | _ => false)
  | _ => false

/-- Schema check for one persisted portal record, written from the amended
claim: exactly the nine fields of `createPortalState`, with their types. -/
def portalSchemaOK : Json → Bool
  | .obj fields =>
    match fields with
    | [("status", .str _), ("currentPage", .num _),
       ("totalPagesDiscovered", .num _), ("studyUrlsQueue", q),
       ("scrapedStudyUrls", s), ("programsExtracted", .num _),
       ("lastError", le), ("startedAt", sa), ("completedAt", ca)] =>
      isStrArr q && isStrArr s && isNullOrStr le && isNullOrStr sa &&
        isNullOrStr ca
    | _ => false
  | _ => false

/-- Schema check for the whole persisted record, written from the amended
claim: `{ lastUpdated, currentPhase, countries }` where `countries` maps each
country label to `{ masters, bachelors }`, each a portal record; unit records
carry no `target`/`category` fields and there is no flat `units` list. -/
def codeSchemaOK : Json → Bool
  | .obj fields =>
    match fields with
    | [("lastUpdated", .str _), ("currentPhase", .str _),
       ("countries", .obj countryFields)] =>
      countryFields.all (fun p =>
        match p.2 with
        | .obj [("masters", m), ("bachelors", b)] =>
          portalSchemaOK m && portalSchemaOK b
        | _ => false)
    | _ => false
  | _ => false

/-! ## Concrete fixtures used by witnesses and counterexamples -/

/-- A mid-crawl unit state with disjoint queue and scraped list. -/
def exUnit : PortalState :=
  { createPortalState with
      status := "in_progress",
      currentPage := 3,
      studyUrlsQueue := ["https://www.mastersportal.com/studies/1",
        "https://www.mastersportal.com/studies/2"],
      scrapedStudyUrls := ["https://www.mastersportal.com/studies/0"] }

/-- Urls offered for enqueueing: one scraped, one already queued, one new. -/
def exUrls : List String :=
  ["https://www.mastersportal.com/studies/0",
   "https://www.mastersportal.com/studies/1",
   "https://www.mastersportal.com/studies/3"]

/-- A disk that always fails to write. -/
def failingDisk : Nat → WriteOutcome :=
  fun _ => .ioError "ENOSPC: no space left on device"

/-- A page snapshot whose title is `'Please Wait'` and whose content and url
carry no marker at all. -/
def pleaseWaitSnapshot : PageSnapshot :=
  { url := "https://www.mastersportal.com/search/master/united-kingdom",
    title := "Please Wait", content := "<html></html>", cookieNames := [] }

/-- A snapshot showing both a hard-block content marker and an interstitial
title. -/
def blockedAndChallengedSnapshot : PageSnapshot :=
  { url := "https://www.mastersportal.com/search/master/united-kingdom",
    title := "Just a moment", content := "Sorry, you have been blocked",
    cookieNames := [] }

/-- A successful search-page result for the fallback engine. -/
def exSearchResult : SearchPageResult :=
  { studyUrls := ["https://www.mastersportal.com/studies/1"],
    hasNextPage := false, currentPage := 1 }

/-- An environment whose only search page is empty and final, with everything
else succeeding. -/
def emptyPageEnv : CrawlEnv :=
  { searchPage := fun _ => .ok [] false,
    scrapeOk := fun _ => true,
    maxPagesPerCountry := 999,
    now := "2025-01-01T00:00:00.000Z" }

/-- A unit state persisted mid-crawl with a url still sitting in the pending
queue and the cursor on page 2. -/
def staleQueueUnit : PortalState :=
  { createPortalState with
      status := "in_progress",
      currentPage := 2,
      studyUrlsQueue := ["https://www.mastersportal.com/studies/stale"] }

/-- An environment in which every search-page fetch ends blocked. -/
def blockedEnv : CrawlEnv :=
  { searchPage := fun _ => .fail (blockedErrorMsg "CHROMIUM"),
    scrapeOk := fun _ => false,
    maxPagesPerCountry := 999,
    now := "2025-01-01T00:00:00.000Z" }

/-- A fresh global state that has lazily created one country entry. -/
def exGlobalState : GlobalState :=
  (getCountryEntry (createFreshState "2025-01-01T00:00:00.000Z")
    "united-kingdom").1

/-! ## Theorems -/

/-- **C1.** For every crawl-unit state in which the pending queue
(`studyUrlsQueue`) and the completed set (`scrapedStudyUrls`) are disjoint,
the queue-touching `StateManager` operations preserve disjointness:
`addStudyUrlsToQueue` only enqueues urls that are in neither list, and
`markStudyUrlScraped` removes the url from the queue while adding it to the
scraped list, so pending ∩ completed = ∅ holds after either mutation. -/
theorem stateManager_preserves_disjointness (st : PortalState)
    (urls : List String) (url : String) (hd : QueueScrapedDisjoint st) :
    QueueScrapedDisjoint (addStudyUrlsToQueue st urls).1 ∧
    (∀ u, u ∈ (addStudyUrlsToQueue st urls).1.studyUrlsQueue →
      u ∈ st.studyUrlsQueue ∨
        (u ∉ st.scrapedStudyUrls ∧ u ∉ st.studyUrlsQueue)) ∧
    QueueScrapedDisjoint (markStudyUrlScraped st url) ∧
    url ∉ (markStudyUrlScraped st url).studyUrlsQueue ∧
    url ∈ (markStudyUrlScraped st url).scrapedStudyUrls := by
  refine ⟨addStudyUrlsToQueue_disjoint hd urls, ?_,
    markStudyUrlScraped_disjoint hd url,
    url_not_mem_queue_markStudyUrlScraped st url,
    url_mem_scraped_markStudyUrlScraped st url⟩
  intro u hu
  rcases mem_queue_addStudyUrlsToQueue hu with h | h
  · exact Or.inl h
  · exact Or.inr ⟨h.2.1, h.2.2⟩

/-- Witness for `stateManager_preserves_disjointness` at a concrete
mid-crawl state. -/
theorem stateManager_preserves_disjointness_witness :
    QueueScrapedDisjoint (addStudyUrlsToQueue exUnit exUrls).1 ∧
    (∀ u, u ∈ (addStudyUrlsToQueue exUnit exUrls).1.studyUrlsQueue →
      u ∈ exUnit.studyUrlsQueue ∨
        (u ∉ exUnit.scrapedStudyUrls ∧ u ∉ exUnit.studyUrlsQueue)) ∧
    QueueScrapedDisjoint
      (markStudyUrlScraped exUnit "https://www.mastersportal.com/studies/1") ∧
    "https://www.mastersportal.com/studies/1" ∉
      (markStudyUrlScraped exUnit
        "https://www.mastersportal.com/studies/1").studyUrlsQueue ∧
    "https://www.mastersportal.com/studies/1" ∈
      (markStudyUrlScraped exUnit
        "https://www.mastersportal.com/studies/1").scrapedStudyUrls :=
  stateManager_preserves_disjointness exUnit exUrls
    "https://www.mastersportal.com/studies/1" (by decide)

/-- **C9.** `markStudyUrlScraped` is idempotent: applying it twice equals
applying it once, marking a url already in the scraped list leaves the
scraped list unchanged (a no-op, not an error), and after the operation the
url is out of the queue and in the scraped list. -/
theorem markStudyUrlScraped_idempotent (st : PortalState) (url : String) :
    markStudyUrlScraped (markStudyUrlScraped st url) url =
      markStudyUrlScraped st url ∧
    (url ∈ st.scrapedStudyUrls →
      (markStudyUrlScraped st url).scrapedStudyUrls = st.scrapedStudyUrls) ∧
    url ∉ (markStudyUrlScraped st url).studyUrlsQueue ∧
    url ∈ (markStudyUrlScraped st url).scrapedStudyUrls := by
  refine ⟨?_, ?_, url_not_mem_queue_markStudyUrlScraped st url,
    url_mem_scraped_markStudyUrlScraped st url⟩
  · have key : ∀ s : PortalState,
        s.studyUrlsQueue.filter (fun u => u ≠ url) = s.studyUrlsQueue →
        url ∈ s.scrapedStudyUrls → markStudyUrlScraped s url = s := by
      intro s h1 h2
      simp only [markStudyUrlScraped]
      rw [if_pos h2, h1]
    refine key (markStudyUrlScraped st url) ?_
      (url_mem_scraped_markStudyUrlScraped st url)
    rw [List.filter_eq_self]
    intro a ha
    simpa using (mem_queue_markStudyUrlScraped ha).2
  · intro h
    simp only [markStudyUrlScraped]
    rw [if_pos h]

/-- Witness for `markStudyUrlScraped_idempotent` at a concrete state and a
url already scraped. -/
theorem markStudyUrlScraped_idempotent_witness :
    markStudyUrlScraped
        (markStudyUrlScraped exUnit "https://www.mastersportal.com/studies/0")
        "https://www.mastersportal.com/studies/0" =
      markStudyUrlScraped exUnit "https://www.mastersportal.com/studies/0" ∧
    ("https://www.mastersportal.com/studies/0" ∈ exUnit.scrapedStudyUrls →
      (markStudyUrlScraped exUnit
        "https://www.mastersportal.com/studies/0").scrapedStudyUrls =
        exUnit.scrapedStudyUrls) ∧
    "https://www.mastersportal.com/studies/0" ∉
      (markStudyUrlScraped exUnit
        "https://www.mastersportal.com/studies/0").studyUrlsQueue ∧
    "https://www.mastersportal.com/studies/0" ∈
      (markStudyUrlScraped exUnit
        "https://www.mastersportal.com/studies/0").scrapedStudyUrls :=
  markStudyUrlScraped_idempotent exUnit "https://www.mastersportal.com/studies/0"

/-- **C3, counterexample.** `saveState` does not retry a failed write and does
not abort: on a disk that always fails, exactly one write is attempted, the
error is logged, and the process continues — refuting the claim that a
failure is retried once and that a failing retry aborts the process. -/
theorem saveState_no_retry_no_abort_counterexample :
    (saveState failingDisk).writeAttempts = 1 ∧
    (saveState failingDisk).loggedError = true ∧
    ¬((saveState failingDisk).writeAttempts = 2 ∨
      (saveState failingDisk).aborted = true) := by
  decide

/-- **C3, amended.** When the synchronous flush of persisted state to disk
fails, the failure is logged and swallowed: exactly one write is attempted
(no retry) and the process never aborts, continuing with possibly unsaved
state. -/
theorem saveState_logs_and_continues (disk : Nat → WriteOutcome) :
    (saveState disk).writeAttempts = 1 ∧
    (saveState disk).aborted = false ∧
    ((saveState disk).loggedError = true ↔ disk 0 ≠ .ok) := by
  unfold saveState
  cases h : disk 0 <;> simp [h]

/-- Witness for `saveState_logs_and_continues` on the always-failing disk. -/
theorem saveState_logs_and_continues_witness :
    (saveState failingDisk).writeAttempts = 1 ∧
    (saveState failingDisk).aborted = false ∧
    ((saveState failingDisk).loggedError = true ↔ failingDisk 0 ≠ .ok) :=
  saveState_logs_and_continues failingDisk

lemma isChallengePlatform_of_isTurnstileChallenge {p : PageSnapshot}
    (h : isTurnstileChallenge p = true) : isChallengePlatform p = true := by
  unfold isTurnstileChallenge strIncludes at h
  unfold isChallengePlatform strIncludes
  rw [decide_eq_true_eq] at h ⊢
  exact List.IsInfix.trans (by decide) h

/-- **C5, counterexample.** On a snapshot titled `'Please Wait'` with no
marker in the content or url, `detectChallenge` reports a challenge while
the claim's rule table (title markers `'Just a moment'`/`'Attention
Required'` only) yields `clear` — refuting the claim's description of
the classifier. -/
theorem detectChallenge_counterexample :
    detectChallenge pleaseWaitSnapshot = .challenge ∧
    claimClassify pleaseWaitSnapshot = .clear := by
  decide

/-- **C5, amended.** The classifier decides in priority order with the code's
full marker lists: content matching a hard-block marker (`'Access denied'`,
`'blocked'`, `'Sorry, you have been blocked'`, or `'Ray ID:'` together with
`'Cloudflare'`) yields `blocked` even when challenge markers are present;
otherwise a challenge-platform url marker, an interstitial title
(`'Just a moment'`, `'Attention Required'`, `'Please Wait'`,
`'Checking your browser'`) or a challenge-widget content marker yields
`challenge`; otherwise `clear`. -/
theorem detectChallenge_matches_rule_table (p : PageSnapshot) :
    detectChallenge p = claimClassifyAmended p := by
  unfold detectChallenge claimClassifyAmended hasAccessDenied hasBlockedTitle
  cases hAD : (strIncludes p.content "Access denied" ||
      strIncludes p.content "blocked" ||
      strIncludes p.content "Sorry, you have been blocked" ||
      (strIncludes p.content "Ray ID:" && strIncludes p.content "Cloudflare"))
  · cases hpl : isChallengePlatform p
    · have htu : isTurnstileChallenge p = false := by
        cases htu : isTurnstileChallenge p
        · rfl
        · rw [isChallengePlatform_of_isTurnstileChallenge htu] at hpl
          exact absurd hpl (by simp)
      unfold isChallengePlatform at hpl
      cases hc : hasChallengeContent p <;>
        cases h1 : strIncludes p.title "Just a moment" <;>
        cases h2 : strIncludes p.title "Attention Required" <;>
        cases h3 : strIncludes p.title "Please Wait" <;>
        cases h4 : strIncludes p.title "Checking your browser" <;>
        simp [hAD, hpl, htu, hc, h1, h2, h3, h4]
    · unfold isChallengePlatform at hpl
      simp [hAD, hpl]
  · simp [hAD]

/-- Witness for `detectChallenge_matches_rule_table`: on a snapshot showing
both a hard-block marker and an interstitial title, both classifiers break
the tie toward `blocked`. -/
theorem detectChallenge_matches_rule_table_witness :
    detectChallenge blockedAndChallengedSnapshot =
      claimClassifyAmended blockedAndChallengedSnapshot ∧
    detectChallenge blockedAndChallengedSnapshot = .blocked :=
  ⟨detectChallenge_matches_rule_table blockedAndChallengedSnapshot, by decide⟩

lemma strIncludes_blockedErrorMsg (browserName : String) :
    strIncludes (blockedErrorMsg browserName) "Cloudflare" = true := by
  unfold blockedErrorMsg strIncludes
  rw [decide_eq_true_eq]
  have hpre : "Cloudflare".toList <+:
      ("Cloudflare blocked access with ".toList ++ browserName.toList) :=
    List.IsPrefix.trans (by decide) (List.prefix_append _ _)
  have : ("Cloudflare blocked access with " ++ browserName).toList =
      "Cloudflare blocked access with ".toList ++ browserName.toList := by
    simp [String.toList, String.data_append]
  rw [this]
  exact hpre.isInfix

/-- **C6, counterexample.** When the Chromium step of the search-page fetch
ends `blocked` (it throws `'Cloudflare blocked access with CHROMIUM'`), the
`crawlSearchPage` wrapper does not surface the failure immediately: because
the blocked message contains `'Cloudflare'`, the alternate WebKit engine is
attempted within the same `crawlSearchPage` call — refuting the claim that
no further ladder step runs after a blocked result. -/
theorem blocked_does_not_short_circuit_counterexample :
    (crawlSearchPage (.err (blockedErrorMsg "CHROMIUM"))
      (.ok exSearchResult)).2 ≠ [.chromium] ∧
    (crawlSearchPage (.err (blockedErrorMsg "CHROMIUM"))
      (.ok exSearchResult)).2 = [.chromium, .webkit] ∧
    (crawlSearchPage (.err (blockedErrorMsg "CHROMIUM"))
      (.ok exSearchResult)).1 = .ok exSearchResult := by
  refine ⟨?_, ?_, ?_⟩ <;>
    simp [crawlSearchPage, strIncludes_blockedErrorMsg]

/-- **C6, amended.** A `blocked` classification short-circuits the remainder
of the current browser attempt — after the blocked-content check throws, no
link-wait, retry-click or visible-mode fallback runs within that attempt, and
`waitForChallengePass` gives up immediately on a blocked classification — but
the engine-switch wrapper treats the blocked error like any Cloudflare error
and still tries the alternate engine once before surfacing the failure. -/
theorem blocked_short_circuits_attempt (browserName : String)
    (hasChallengeTitle challengeResolves linksLoad retryButton : Bool)
    (webkitRun : BrowserAttempt)
    (hchal : (hasChallengeTitle && !challengeResolves) = false)
    (rest : List ChallengeType) :
    (browserAttemptSteps browserName hasChallengeTitle challengeResolves
        true linksLoad retryButton =
      (.error (blockedErrorMsg browserName),
        (if hasChallengeTitle then [.challengeLoop] else []) ++
          [.blockedCheck])) ∧
    LadderStep.visibleFallback ∉ (browserAttemptSteps browserName
      hasChallengeTitle challengeResolves true linksLoad retryButton).2 ∧
    LadderStep.linkWait ∉ (browserAttemptSteps browserName
      hasChallengeTitle challengeResolves true linksLoad retryButton).2 ∧
    (crawlSearchPage (.err (blockedErrorMsg browserName)) webkitRun).2 =
      [.chromium, .webkit] ∧
    waitForChallengePass (.blocked :: rest) = (false, 1) := by
  have hsteps : browserAttemptSteps browserName hasChallengeTitle
      challengeResolves true linksLoad retryButton =
      (.error (blockedErrorMsg browserName),
        (if hasChallengeTitle then [.challengeLoop] else []) ++
          [.blockedCheck]) := by
    unfold browserAttemptSteps
    rw [hchal]
    simp
  refine ⟨hsteps, ?_, ?_, ?_, ?_⟩
  · rw [hsteps]
    cases hasChallengeTitle <;> simp
  · rw [hsteps]
    cases hasChallengeTitle <;> simp
  · cases webkitRun <;>
      simp [crawlSearchPage, strIncludes_blockedErrorMsg]
  · simp [waitForChallengePass]

/-- Witness for `blocked_short_circuits_attempt` at a concrete blocked
Chromium attempt with a challenge title that had resolved. -/
theorem blocked_short_circuits_attempt_witness :
    (browserAttemptSteps "CHROMIUM" true true true true true =
      (.error (blockedErrorMsg "CHROMIUM"),
        (if (true : Bool) then [LadderStep.challengeLoop] else []) ++
          [.blockedCheck])) ∧
    LadderStep.visibleFallback ∉
      (browserAttemptSteps "CHROMIUM" true true true true true).2 ∧
    LadderStep.linkWait ∉
      (browserAttemptSteps "CHROMIUM" true true true true true).2 ∧
    (crawlSearchPage (.err (blockedErrorMsg "CHROMIUM"))
      (.ok exSearchResult)).2 = [.chromium, .webkit] ∧
    waitForChallengePass [.blocked, .clear] = (false, 1) :=
  blocked_short_circuits_attempt "CHROMIUM" true true true true
    (.ok exSearchResult) (by decide) [.clear]

lemma scraped_mono_markStudyUrlScraped {st : PortalState} {url u : String}
    (h : u ∈ st.scrapedStudyUrls) :
    u ∈ (markStudyUrlScraped st url).scrapedStudyUrls := by
  simp only [markStudyUrlScraped]
  split
  · exact h
  · exact List.mem_append_left _ h

lemma scraped_mono_processStudyUrl {st : PortalState} {url u : String}
    {ok : Bool} (h : u ∈ st.scrapedStudyUrls) :
    u ∈ (processStudyUrl st url ok).scrapedStudyUrls := by
  unfold processStudyUrl
  split
  · exact scraped_mono_markStudyUrlScraped h
  · exact scraped_mono_markStudyUrlScraped h

lemma queue_processStudyUrl {st : PortalState} {url u : String} {ok : Bool}
    (h : u ∈ (processStudyUrl st url ok).studyUrlsQueue) :
    u ∈ st.studyUrlsQueue := by
  unfold processStudyUrl at h
  split at h <;> exact (mem_queue_markStudyUrlScraped h).1

lemma drainNewUrls_cons (env : CrawlEnv) (st : PortalState) (url : String)
    (rest : List String) :
    drainNewUrls env st (url :: rest) =
      ((drainNewUrls env (processStudyUrl st url (env.scrapeOk url)) rest).1,
        .studyFetch url ::
          (drainNewUrls env (processStudyUrl st url (env.scrapeOk url))
            rest).2) :=
  rfl

lemma scraped_mono_drainNewUrls {u : String} (env : CrawlEnv) :
    ∀ (urls : List String) (st : PortalState), u ∈ st.scrapedStudyUrls →
      u ∈ (drainNewUrls env st urls).1.scrapedStudyUrls := by
  intro urls
  induction urls with
  | nil => intro st h; exact h
  | cons url rest ih =>
    intro st h
    rw [drainNewUrls_cons]
    exact ih _ (scraped_mono_processStudyUrl h)

lemma studyFetch_mem_drainNewUrls {u : String} (env : CrawlEnv) :
    ∀ (urls : List String) (st : PortalState),
      CrawlEvent.studyFetch u ∈ (drainNewUrls env st urls).2 → u ∈ urls := by
  intro urls
  induction urls with
  | nil => intro st h; simp [drainNewUrls] at h
  | cons url rest ih =>
    intro st h
    rw [drainNewUrls_cons] at h
    rcases List.mem_cons.mp h with h | h
    · simp only [CrawlEvent.studyFetch.injEq] at h
      rw [h]
      exact List.mem_cons_self _ _
    · exact List.mem_cons_of_mem _ (ih _ h)

lemma runPages_stop {env : CrawlEnv} {st : PortalState} {p k fuel : Nat}
    (h : ¬ k < env.maxPagesPerCountry) :
    runPages env st p k (fuel + 1) = (st, []) := by
  unfold runPages
  rw [if_neg h]

lemma runPages_fail {env : CrawlEnv} {st : PortalState} {p k fuel : Nat}
    {msg : String} (h : k < env.maxPagesPerCountry)
    (hf : env.searchPage p = .fail msg) :
    runPages env st p k (fuel + 1) =
      ({ st with lastError := some msg }, [.searchFetch p]) := by
  unfold runPages
  rw [if_pos h, hf]

lemma runPages_ok_next {env : CrawlEnv} {st : PortalState} {p k fuel : Nat}
    {urls : List String} (h : k < env.maxPagesPerCountry)
    (hok : env.searchPage p = .ok urls true) :
    runPages env st p k (fuel + 1) =
      ((runPages env (pageStep env st p urls).1 (p + 1) (k + 1) fuel).1,
        .searchFetch p ::
          ((pageStep env st p urls).2 ++
            (runPages env (pageStep env st p urls).1 (p + 1) (k + 1)
              fuel).2)) := by
  conv_lhs => rw [runPages]
  rw [if_pos h, hok]
  rfl

lemma runPages_ok_last {env : CrawlEnv} {st : PortalState} {p k fuel : Nat}
    {urls : List String} (h : k < env.maxPagesPerCountry)
    (hok : env.searchPage p = .ok urls false) :
    runPages env st p k (fuel + 1) =
      ((pageStep env st p urls).1,
        .searchFetch p :: (pageStep env st p urls).2) := by
  conv_lhs => rw [runPages]
  rw [if_pos h, hok]
  rfl

lemma scraped_mono_pageStep {u : String} {env : CrawlEnv} {st : PortalState}
    {p : Nat} {urls : List String} (h : u ∈ st.scrapedStudyUrls) :
    u ∈ (pageStep env st p urls).1.scrapedStudyUrls :=
  scraped_mono_drainNewUrls env _ st h

lemma studyFetch_mem_pageStep {u : String} {env : CrawlEnv}
    {st : PortalState} {p : Nat} {urls : List String}
    (h : CrawlEvent.studyFetch u ∈ (pageStep env st p urls).2) :
    u ∈ urls ∧ u ∉ st.scrapedStudyUrls := by
  have := studyFetch_mem_drainNewUrls env _ _ h
  rw [List.mem_filter, decide_eq_true_eq] at this
  exact this

lemma runPages_no_refetch {url : String} (env : CrawlEnv) :
    ∀ (fuel : Nat) (st : PortalState) (p k : Nat),
      url ∈ st.scrapedStudyUrls →
      CrawlEvent.studyFetch url ∉ (runPages env st p k fuel).2 := by
  intro fuel
  induction fuel with
  | zero =>
    intro st p k _ hmem
    simp [runPages] at hmem
  | succ fuel ih =>
    intro st p k h hmem
    by_cases hk : k < env.maxPagesPerCountry
    · cases hsp : env.searchPage p with
      | fail msg =>
        rw [runPages_fail hk hsp] at hmem
        simp at hmem
      | ok urls hasNext =>
        cases hasNext
        · rw [runPages_ok_last hk hsp] at hmem
          rcases List.mem_cons.mp hmem with h' | h'
          · exact absurd h' (by simp)
          · exact (studyFetch_mem_pageStep h').2 h
        · rw [runPages_ok_next hk hsp] at hmem
          rcases List.mem_cons.mp hmem with h' | h'
          · exact absurd h' (by simp)
          · rcases List.mem_append.mp h' with h' | h'
            · exact (studyFetch_mem_pageStep h').2 h
            · exact ih _ _ _ (scraped_mono_pageStep h) h'
    · rw [runPages_stop hk] at hmem
      simp at hmem

lemma processCountryPortal_no_refetch {url : String} {env : CrawlEnv}
    {st : PortalState} (h : url ∈ st.scrapedStudyUrls) :
    CrawlEvent.studyFetch url ∉ (processCountryPortal env st).2 := by
  unfold processCountryPortal
  split
  · simp
  · exact runPages_no_refetch env _ _ _ _ h

/-- **C2.** An item url whose fetch chain fails entirely is still marked
done by the orchestrator's per-url `catch`: it is removed from the pending
queue and added to the scraped list, no url is ever added to the queue by the
operation, and — since the scraped list filters every later listing page and
resumed run — no fetch of that url ever happens again. -/
theorem failed_url_still_marked_done (env : CrawlEnv) (st : PortalState)
    (url : String) :
    url ∉ (processStudyUrl st url false).studyUrlsQueue ∧
    url ∈ (processStudyUrl st url false).scrapedStudyUrls ∧
    (∀ v, v ∈ (processStudyUrl st url false).studyUrlsQueue →
      v ∈ st.studyUrlsQueue) ∧
    CrawlEvent.studyFetch url ∉
      (processCountryPortal env (processStudyUrl st url false)).2 :=
  ⟨url_not_mem_queue_markStudyUrlScraped st url,
    url_mem_scraped_markStudyUrlScraped st url,
    fun _ hv => queue_processStudyUrl hv,
    processCountryPortal_no_refetch
      (url_mem_scraped_markStudyUrlScraped st url)⟩

/-- Witness for `failed_url_still_marked_done` on a concrete mid-crawl unit
and environment. -/
theorem failed_url_still_marked_done_witness :
    "https://www.mastersportal.com/studies/1" ∉ (processStudyUrl exUnit
      "https://www.mastersportal.com/studies/1" false).studyUrlsQueue ∧
    "https://www.mastersportal.com/studies/1" ∈ (processStudyUrl exUnit
      "https://www.mastersportal.com/studies/1" false).scrapedStudyUrls ∧
    (∀ v, v ∈ (processStudyUrl exUnit
        "https://www.mastersportal.com/studies/1" false).studyUrlsQueue →
      v ∈ exUnit.studyUrlsQueue) ∧
    CrawlEvent.studyFetch "https://www.mastersportal.com/studies/1" ∉
      (processCountryPortal emptyPageEnv (processStudyUrl exUnit
        "https://www.mastersportal.com/studies/1" false)).2 :=
  failed_url_still_marked_done emptyPageEnv exUnit
    "https://www.mastersportal.com/studies/1"

lemma processCountryPortal_completed {env : CrawlEnv} {st : PortalState}
    (h : st.status = "completed") :
    processCountryPortal env st = (st, []) := by
  unfold processCountryPortal
  rw [if_pos]
  simp [isCompleted, h]

lemma processCountryPortal_run {env : CrawlEnv} {st : PortalState}
    (h : st.status ≠ "completed") :
    processCountryPortal env st =
      ({ (runPages env
            { st with
              status := "in_progress",
              startedAt := some (st.startedAt.getD env.now) }
            (if st.currentPage = 0 then 1 else st.currentPage) 0
            (env.maxPagesPerCountry + 1)).1 with
          status := "completed", completedAt := some env.now },
        (runPages env
          { st with
            status := "in_progress",
            startedAt := some (st.startedAt.getD env.now) }
          (if st.currentPage = 0 then 1 else st.currentPage) 0
          (env.maxPagesPerCountry + 1)).2) := by
  unfold processCountryPortal
  rw [if_neg]
  simp [isCompleted, h]

lemma runPages_studyFetch_src {u : String} (env : CrawlEnv) :
    ∀ (fuel : Nat) (st : PortalState) (p k : Nat),
      CrawlEvent.studyFetch u ∈ (runPages env st p k fuel).2 →
      ∃ page urls hasNext,
        env.searchPage page = .ok urls hasNext ∧ u ∈ urls := by
  intro fuel
  induction fuel with
  | zero =>
    intro st p k hmem
    simp [runPages] at hmem
  | succ fuel ih =>
    intro st p k hmem
    by_cases hk : k < env.maxPagesPerCountry
    · cases hsp : env.searchPage p with
      | fail msg =>
        rw [runPages_fail hk hsp] at hmem
        simp at hmem
      | ok urls hasNext =>
        cases hasNext
        · rw [runPages_ok_last hk hsp] at hmem
          rcases List.mem_cons.mp hmem with h' | h'
          · exact absurd h' (by simp)
          · exact ⟨p, urls, false, hsp, (studyFetch_mem_pageStep h').1⟩
        · rw [runPages_ok_next hk hsp] at hmem
          rcases List.mem_cons.mp hmem with h' | h'
          · exact absurd h' (by simp)
          · rcases List.mem_append.mp h' with h' | h'
            · exact ⟨p, urls, true, hsp, (studyFetch_mem_pageStep h').1⟩
            · exact ih _ _ _ h'
    · rw [runPages_stop hk] at hmem
      simp at hmem

lemma runPages_first_fetch {env : CrawlEnv} (st : PortalState) (p : Nat)
    (h : 0 < env.maxPagesPerCountry) :
    ∃ evs, (runPages env st p 0 (env.maxPagesPerCountry + 1)).2 =
      .searchFetch p :: evs := by
  cases hsp : env.searchPage p with
  | fail msg => exact ⟨[], by rw [runPages_fail h hsp]⟩
  | ok urls hasNext =>
    cases hasNext
    · exact ⟨_, by rw [runPages_ok_last h hsp]⟩
    · exact ⟨_, by rw [runPages_ok_next h hsp]⟩

/-- **C4, counterexample.** A unit persisted mid-crawl with a url still in
`studyUrlsQueue` and cursor 2, resumed against a site whose page 2 is empty
and final: the run performs one search fetch and no study fetch at all — the
persisted pending queue is never drained (its url is not fetched and is even
still queued afterwards), refuting the claim that the queue is drained before
discovery resumes. -/
theorem pending_queue_not_drained_counterexample :
    (processCountryPortal emptyPageEnv staleQueueUnit).2 =
      [.searchFetch 2] ∧
    CrawlEvent.studyFetch "https://www.mastersportal.com/studies/stale" ∉
      (processCountryPortal emptyPageEnv staleQueueUnit).2 ∧
    (processCountryPortal emptyPageEnv staleQueueUnit).1.studyUrlsQueue =
      ["https://www.mastersportal.com/studies/stale"] := by
  decide

/-- **C4, amended.** On start the orchestrator skips a unit exactly when its
status is `'completed'`; otherwise it resumes discovery directly from the
persisted listing-page cursor (`currentPage || 1`): the first fetch is the
search page at the cursor, and every study url it ever fetches comes from a
listing page returned by the environment — the persisted pending queue is
never consulted. -/
theorem resume_skips_completed_and_rediscover (env : CrawlEnv)
    (st : PortalState) :
    (st.status = "completed" → processCountryPortal env st = (st, [])) ∧
    (st.status ≠ "completed" → 0 < env.maxPagesPerCountry →
      ∃ evs, (processCountryPortal env st).2 =
        .searchFetch (if st.currentPage = 0 then 1 else st.currentPage) ::
          evs) ∧
    (∀ url, CrawlEvent.studyFetch url ∈ (processCountryPortal env st).2 →
      ∃ page urls hasNext,
        env.searchPage page = .ok urls hasNext ∧ url ∈ urls) := by
  refine ⟨fun h => processCountryPortal_completed h, ?_, ?_⟩
  · intro h hmax
    rw [processCountryPortal_run h]
    exact runPages_first_fetch _ _ hmax
  · intro url hmem
    by_cases h : st.status = "completed"
    · rw [processCountryPortal_completed h] at hmem
      simp at hmem
    · rw [processCountryPortal_run h] at hmem
      exact runPages_studyFetch_src env _ _ _ _ hmem

/-- Witness for `resume_skips_completed_and_rediscover` on the concrete
stale-queue unit and empty-page environment. -/
theorem resume_skips_completed_and_rediscover_witness :
    (staleQueueUnit.status ≠ "completed" ∧
      0 < emptyPageEnv.maxPagesPerCountry) ∧
    ((staleQueueUnit.status = "completed" →
      processCountryPortal emptyPageEnv staleQueueUnit =
        (staleQueueUnit, [])) ∧
    (staleQueueUnit.status ≠ "completed" →
      0 < emptyPageEnv.maxPagesPerCountry →
      ∃ evs, (processCountryPortal emptyPageEnv staleQueueUnit).2 =
        .searchFetch
          (if staleQueueUnit.currentPage = 0 then 1
            else staleQueueUnit.currentPage) :: evs) ∧
    (∀ url, CrawlEvent.studyFetch url ∈
        (processCountryPortal emptyPageEnv staleQueueUnit).2 →
      ∃ page urls hasNext,
        emptyPageEnv.searchPage page = .ok urls hasNext ∧ url ∈ urls)) :=
  ⟨⟨by decide, by decide⟩,
    resume_skips_completed_and_rediscover emptyPageEnv staleQueueUnit⟩

lemma runPhase_trace (env : CrawlEnv) (portal : PortalType) :
    ∀ (labels : List String) (gs : GlobalState),
      (runPhase env portal gs labels).2 =
        labels.map (fun l => RunEvent.unit l portal) := by
  intro labels
  induction labels with
  | nil => intro gs; rfl
  | cons l rest ih =>
    intro gs
    simp only [runPhase, List.map]
    rw [ih]

lemma processUnit_currentPhase (env : CrawlEnv) (gs : GlobalState)
    (label : String) (portal : PortalType) :
    (processUnit env gs label portal).currentPhase = gs.currentPhase := by
  simp only [processUnit, setPortalState, getCountryEntry]
  cases h : gs.countries.lookup label <;> simp [h]

lemma runPhase_currentPhase (env : CrawlEnv) (portal : PortalType) :
    ∀ (labels : List String) (gs : GlobalState),
      (runPhase env portal gs labels).1.currentPhase = gs.currentPhase := by
  intro labels
  induction labels with
  | nil => intro gs; rfl
  | cons l rest ih =>
    intro gs
    simp only [runPhase]
    rw [ih, processUnit_currentPhase]

lemma crawl_masters_trace {env : CrawlEnv} {labels : List String}
    {gs : GlobalState} (h : gs.currentPhase = "masters") :
    (crawl env labels gs).2 =
      labels.map (fun l => RunEvent.unit l .masters) ++
        .phaseSet "bachelors" ::
          labels.map (fun l => RunEvent.unit l .bachelors) ∧
    (crawl env labels gs).1.currentPhase = "bachelors" := by
  unfold crawl
  rw [h]
  simp only [beq_self_eq_true, if_true, setCurrentPhase]
  constructor
  · rw [runPhase_trace, runPhase_trace]
    simp
  · rw [runPhase_currentPhase]

/-- **C7, counterexample.** A fresh unit run against an environment whose
every search-page fetch ends blocked: `lastError` is recorded, but the unit's
final status is `'completed'` — not `'in_progress'` as the claim states — so
a later run will skip it rather than resume it. -/
theorem blocked_unit_marked_completed_counterexample :
    (processCountryPortal blockedEnv createPortalState).1.status =
      "completed" ∧
    (processCountryPortal blockedEnv createPortalState).1.status ≠
      "in_progress" ∧
    (processCountryPortal blockedEnv createPortalState).1.lastError =
      some (blockedErrorMsg "CHROMIUM") := by
  decide

/-- **C7, amended.** When a unit's fetch attempt chain ends blocked, the
error message is recorded in the unit's `lastError` and the run is not
aborted — `processCountryPortal` returns normally and the phase loop emits
one `unit` event per country regardless of the environment — but the blocked
unit's status is then set to `'completed'` by the post-loop completion
marking, not left `'in_progress'`, so later runs skip it instead of resuming
it. -/
theorem blocked_unit_recorded_run_continues (env : CrawlEnv)
    (st : PortalState) (msg : String) (h : st.status ≠ "completed")
    (hf : env.searchPage (if st.currentPage = 0 then 1 else st.currentPage) =
      .fail msg)
    (hmax : 0 < env.maxPagesPerCountry) :
    (processCountryPortal env st).1.lastError = some msg ∧
    (processCountryPortal env st).1.status = "completed" ∧
    (processCountryPortal env st).2 =
      [.searchFetch (if st.currentPage = 0 then 1 else st.currentPage)] ∧
    (∀ (labels : List String) (gs : GlobalState) (portal : PortalType),
      (runPhase env portal gs labels).2 =
        labels.map (fun l => RunEvent.unit l portal)) := by
  rw [processCountryPortal_run h, runPages_fail hmax hf]
  exact ⟨rfl, rfl, rfl, fun labels gs portal => runPhase_trace env portal labels gs⟩

/-- Witness for `blocked_unit_recorded_run_continues` on the everywhere-blocked
environment and a fresh unit. -/
theorem blocked_unit_recorded_run_continues_witness :
    (createPortalState.status ≠ "completed" ∧
      blockedEnv.searchPage
          (if createPortalState.currentPage = 0 then 1
            else createPortalState.currentPage) =
        .fail (blockedErrorMsg "CHROMIUM") ∧
      0 < blockedEnv.maxPagesPerCountry) ∧
    ((processCountryPortal blockedEnv createPortalState).1.lastError =
      some (blockedErrorMsg "CHROMIUM") ∧
    (processCountryPortal blockedEnv createPortalState).1.status =
      "completed" ∧
    (processCountryPortal blockedEnv createPortalState).2 =
      [.searchFetch
        (if createPortalState.currentPage = 0 then 1
          else createPortalState.currentPage)] ∧
    (∀ (labels : List String) (gs : GlobalState) (portal : PortalType),
      (runPhase blockedEnv portal gs labels).2 =
        labels.map (fun l => RunEvent.unit l portal))) :=
  ⟨⟨by decide, by decide, by decide⟩,
    blocked_unit_recorded_run_continues blockedEnv createPortalState
      (blockedErrorMsg "CHROMIUM") (by decide) (by decide) (by decide)⟩

/-- **C8.** Phase progression is barrier-synchronized: in a run starting in
phase `'masters'`, the trace is exactly the masters pass over every country
in declaration order, then the single advance of the persisted phase marker
to `'bachelors'`, then the bachelors pass over every country — so every
masters unit precedes every bachelors unit, the marker advances exactly once
and only after the full masters pass, and the final persisted phase is
`'bachelors'`. -/
theorem phase_barrier_synchronized (env : CrawlEnv) (labels : List String)
    (gs : GlobalState) (h : gs.currentPhase = "masters") :
    (crawl env labels gs).2 =
      labels.map (fun l => RunEvent.unit l .masters) ++
        .phaseSet "bachelors" ::
          labels.map (fun l => RunEvent.unit l .bachelors) ∧
    (crawl env labels gs).2.count (RunEvent.phaseSet "bachelors") = 1 ∧
    (crawl env labels gs).1.currentPhase = "bachelors" := by
  obtain ⟨htr, hphase⟩ := crawl_masters_trace h
  refine ⟨htr, ?_, hphase⟩
  rw [htr]
  have hz : ∀ (portal : PortalType),
      (labels.map (fun l => RunEvent.unit l portal)).count
        (RunEvent.phaseSet "bachelors") = 0 := by
    intro portal
    rw [List.count_eq_zero]
    simp
  rw [List.count_append, List.count_cons_self, hz, hz]

/-- Witness for `phase_barrier_synchronized` on a concrete two-country run
starting in phase `'masters'`. -/
theorem phase_barrier_synchronized_witness :
    (crawl emptyPageEnv ["united-kingdom", "germany"]
        (createFreshState "t0")).2 =
      (["united-kingdom", "germany"].map
          (fun l => RunEvent.unit l .masters)) ++
        .phaseSet "bachelors" ::
          (["united-kingdom", "germany"].map
            (fun l => RunEvent.unit l .bachelors)) ∧
    (crawl emptyPageEnv ["united-kingdom", "germany"]
        (createFreshState "t0")).2.count (RunEvent.phaseSet "bachelors") = 1 ∧
    (crawl emptyPageEnv ["united-kingdom", "germany"]
        (createFreshState "t0")).1.currentPhase = "bachelors" :=
  phase_barrier_synchronized emptyPageEnv ["united-kingdom", "germany"]
    (createFreshState "t0") rfl

lemma isStrArr_map_str (l : List String) :
    isStrArr (Json.arr (l.map .str)) = true := by
  unfold isStrArr
  rw [List.all_eq_true]
  intro x hx
  rcases List.mem_map.mp hx with ⟨s, _, rfl⟩
  rfl

lemma isNullOrStr_optJson (o : Option String) :
    isNullOrStr (optJson o) = true := by
  cases o <;> rfl

lemma portalSchemaOK_toJson (st : PortalState) :
    portalSchemaOK st.toJson = true := by
  unfold portalSchemaOK PortalState.toJson
  simp [isStrArr_map_str, isNullOrStr_optJson]

/-- **C10, counterexample.** The record persisted for a fresh state with one
country entry does not satisfy the claimed schema `{ currentPhase,
units: [...] }`: there is no `units` field at all (the state nests portal
records under `countries[label].masters/bachelors` and carries `lastUpdated`
besides), refuting the claimed shape of the state file. -/
theorem persisted_schema_counterexample :
    specSchemaOK exGlobalState.toJson = false := by
  decide

/-- **C10, amended.** Every persisted state record has the shape
`{ lastUpdated, currentPhase, countries }`, where `countries` maps each
country label to `{ masters, bachelors }` and each of those is a portal
record `{ status, currentPage, totalPagesDiscovered, studyUrlsQueue,
scrapedStudyUrls, programsExtracted, lastError, startedAt, completedAt }` —
a nested map rather than a flat list of units carrying target and
category. -/
theorem persisted_schema_nested (gs : GlobalState) :
    codeSchemaOK gs.toJson = true := by
  unfold codeSchemaOK GlobalState.toJson
  simp only [List.all_eq_true]
  intro p hp
  rcases List.mem_map.mp hp with ⟨q, _, rfl⟩
  simp [CountryEntry.toJson, portalSchemaOK_toJson]

/-- Witness for `persisted_schema_nested` on the concrete one-country
state. -/
theorem persisted_schema_nested_witness :
    codeSchemaOK exGlobalState.toJson = true :=
  persisted_schema_nested exGlobalState

end StudyPortal
